import Mathlib

/-!
Verification development for the retry/validation core of the
cloudflare-speedtest browser extension (background service worker
`background/service_worker.js` and the engine wrapper
`dist/speedtest-bundle` source).

The JavaScript source is shallowly embedded: JS values are an inductive
type (`JSValue`), JS numbers distinguish finite values, `NaN` and the
infinities (`JSNum`), and the service worker's stateful callbacks become
explicit state-passing functions over `OrchState`.  Code that can throw a
`TypeError` (the classifier's `error?.message?.toLowerCase()`) is embedded
in `Except`.
-/

namespace Speedtest

/-- Model of a JavaScript number: a finite value (as an exact rational),
`NaN`, or one of the two infinities. -/
inductive JSNum where
  | fin (q : ℚ)
  | nan
  | posInf
  | negInf
deriving DecidableEq, Repr

/-- Model of a JavaScript value as it occurs in this extension:
`undefined`, `null`, booleans, numbers, strings, arrays and plain
objects (field lists). -/
inductive JSValue where
  | undefined
  | null
  | bool (b : Bool)
  | num (n : JSNum)
  | str (s : String)
  | arr (elems : List JSValue)
  | obj (fields : List (String × JSValue))

/-- First-match lookup in an object's field list (runtime objects have no
duplicate keys). Missing fields read as `undefined`, as in JS. -/
def lookupField : List (String × JSValue) → String → JSValue
  | [], _ => .undefined
  | (k, v) :: rest, f => if k == f then v else lookupField rest f

/-- Property access `v.f` on a non-nullish value: objects look the field
up, every other value has no such data property and yields `undefined`. -/
def getField : JSValue → String → JSValue
  | .obj fields, f => lookupField fields f
  | _, _ => .undefined

/-- JS `typeof` operator restricted to the modelled values
(`typeof null` is "object", arrays are "object"). -/
def typeof : JSValue → String
  | .undefined => "undefined"
  | .null => "object"
  | .bool _ => "boolean"
  | .num _ => "number"
  | .str _ => "string"
  | .arr _ => "object"
  | .obj _ => "object"

/-- JS truthiness: `undefined`, `null`, `false`, `0`, `NaN` and `""` are
falsy, everything else (objects and arrays included) is truthy. -/
def truthy : JSValue → Bool
  | .undefined => false
  | .null => false
  | .bool b => b
  | .num (.fin q) => q != 0
  | .num .nan => false
  | .num .posInf => true
  | .num .negInf => true
  | .str s => !s.isEmpty
  | .arr _ => true
  | .obj _ => true

/-- `Number.isFinite`: true exactly on finite numbers (false on `NaN`,
the infinities, and every non-number). -/
def isFiniteNumber : JSValue → Bool
  | .num (.fin _) => true
  | _ => false

/-- `Array.isArray`. -/
def isArray : JSValue → Bool
  | .arr _ => true
  | _ => false

/-- Nullish coalescing `v ?? null` as used when building payloads. -/
def nullCoalesce : JSValue → JSValue
  | .undefined => .null
  | .null => .null
  | v => v

/-- Character-list version of `String.startsWith` for the substring
scan below. -/
def charsStartWith : List Char → List Char → Bool
  | [], _ => true
  | _ :: _, [] => false
  | p :: ps, c :: cs => p == c && charsStartWith ps cs

/-- Character-list substring containment. -/
def charsContain : List Char → List Char → Bool
  | [], pat => pat.isEmpty
  | c :: t, pat => charsStartWith pat (c :: t) || charsContain t pat

/-- JS `String.prototype.includes`: substring containment. -/
def strContains (s pat : String) : Bool :=
  charsContain s.data pat.data

/-- ASCII lower-casing, the effect of `toLowerCase` on the messages this
code handles. -/
def lowerStr (s : String) : String :=
  ⟨s.data.map Char.toLower⟩

/-!
## Result Validator (`persistResult`, service worker lines 44-91)
-/

/-- Read-side element filter of `persistResult`:
`item && typeof item === 'object' && typeof item.download === 'number'
&& Number.isFinite(item.download)`. -/
def validEntry (item : JSValue) : Bool :=
  truthy item && typeof item == "object" &&
    typeof (getField item "download") == "number" &&
    isFiniteNumber (getField item "download")

/-- Read-side sanitizer of `persistResult`: if the stored value is an
array, keep the elements passing `validEntry`; any other value (absent,
`null`, corrupted) degrades to the empty history.  Total by construction,
mirroring the surrounding `try`/`catch`. -/
def sanitizeResults (v : JSValue) : List JSValue :=
  match v with
  | .arr xs => xs.filter validEntry
  | _ => []

/-- Write-side validation of `persistResult` on the candidate result:
`typeof download === 'number' && Number.isFinite(download)`. -/
def validDownload (result : JSValue) : Bool :=
  typeof (getField result "download") == "number" &&
    isFiniteNumber (getField result "download")

/-- The entry object `persistResult` builds:
`{ ts: Date.now(), download, upload: upload ?? null, latency: latency ?? null,
jitter: jitter ?? null, units: 'Mbps' }`. -/
def mkEntry (now : Nat) (result : JSValue) : JSValue :=
  .obj [("ts", .num (.fin now)),
        ("download", getField result "download"),
        ("upload", nullCoalesce (getField result "upload")),
        ("latency", nullCoalesce (getField result "latency")),
        ("jitter", nullCoalesce (getField result "jitter")),
        ("units", .str "Mbps")]

/-- Observable outcome of one `persistResult` call:
no storage access at all (write-side validation failed), an aborted call
after a storage read error (logged, nothing written), or a write of the
new history list. -/
inductive PersistOutcome where
  | skippedInvalid
  | readErrorAbort
  | wrote (next : List JSValue)

/-- `persistResult(result)` (service worker lines 44-91).  `now` is
`Date.now()`, `readError` tells whether `chrome.runtime.lastError` is set
after the storage read, `stored` is the value found under the `results`
key (`undefined` when absent). -/
def persistResult (result : JSValue) (now : Nat) (readError : Bool)
    (stored : JSValue) : PersistOutcome :=
  if !validDownload result then .skippedInvalid
  else if readError then .readErrorAbort
  else .wrote ((mkEntry now result :: sanitizeResults stored).take 2)

/-!
## Error Classifier (`categorizeError`, service worker lines 94-124)
-/

/-- The four fixed user-facing messages of the classifier, plus the
offline message used by the orchestrator's connectivity guard. -/
def msgNetwork : String :=
  "Network connection issue. Please check your internet connection."

/-- Fixed user message for the `rate-limit` kind. -/
def msgRateLimit : String :=
  "Too many requests. Please wait a moment and try again."

/-- Fixed user message for the `security` kind. -/
def msgSecurity : String :=
  "Connection blocked. Please check your browser settings."

/-- Fixed user message for the `unknown` kind. -/
def msgUnknown : String :=
  "Test failed. Please try again."

/-- Fixed user message for the orchestrator's offline guard. -/
def msgOffline : String :=
  "No internet connection detected. Please check your connection."

/-- The `{type, userMessage}` pair the classifier returns. -/
structure ErrorInfo where
  type : String
  userMessage : String
deriving DecidableEq, Repr

/-- The fixed kind-to-message table of the classifier. -/
def userMessageFor (kind : String) : String :=
  if kind = "network" then msgNetwork
  else if kind = "rate-limit" then msgRateLimit
  else if kind = "security" then msgSecurity
  else msgUnknown

/-- `container?.field?.toLowerCase() || ''`.  Optional chaining guards
only nullish values: a nullish container or field short-circuits to
`undefined`, which `|| ''` turns into the empty string; a string field is
lower-cased; any other non-nullish field value has no `toLowerCase`
method and the access throws a `TypeError` (`.error`). -/
def jsOptLower (container : JSValue) (field : String) : Except Unit String :=
  match container with
  | .null => .ok ""
  | .undefined => .ok ""
  | _ =>
    match getField container field with
    | .null => .ok ""
    | .undefined => .ok ""
    | .str s => .ok (lowerStr s)
    | _ => .error ()

/-- `categorizeError(error)` (service worker lines 94-124) with the
ambient `navigator.onLine` flag made explicit.  The message and name are
lower-cased first (either can throw, see `jsOptLower`); then the checks
run as a priority list: network (including the offline flag), rate limit,
security, unknown. -/
def categorizeError (error : JSValue) (online : Bool) : Except Unit ErrorInfo :=
  match jsOptLower error "message", jsOptLower error "name" with
  | .ok message, .ok name =>
    if strContains message "network" || strContains message "fetch" ||
        strContains message "timeout" || strContains message "connection" ||
        name == "networkerror" || !online then
      .ok ⟨"network", msgNetwork⟩
    else if strContains message "429" || strContains message "rate limit" ||
        strContains message "too many requests" then
      .ok ⟨"rate-limit", msgRateLimit⟩
    else if strContains message "cors" || strContains message "blocked" ||
        strContains message "security" then
      .ok ⟨"security", msgSecurity⟩
    else
      .ok ⟨"unknown", msgUnknown⟩
  | _, _ => .error ()

/-!
## Engine wrapper (`createSpeedTest` `onFinish`, bundle source lines 89-108)
-/

/-- Division by `1e6` on a JS number (bps → Mbps).  Only reached on
truthy operands in this code; `NaN` and the infinities are absorbing, and
a non-numeric operand coerces to `NaN` here (the engine summary fields
are numeric, so that branch is unreachable for engine output). -/
def div1e6 : JSValue → JSValue
  | .num (.fin q) => .num (.fin (q / 1000000))
  | .num .nan => .num .nan
  | .num .posInf => .num .posInf
  | .num .negInf => .num .negInf
  | _ => .num .nan

/-- `summary.download ? summary.download / 1e6 : null`: a falsy raw value
(0, absent, `NaN`) reports as `null`, a truthy one is converted. -/
def condDiv (raw : JSValue) : JSValue :=
  if truthy raw then div1e6 raw else .null

/-- `summary.latency || null` style defaulting. -/
def orNull (raw : JSValue) : JSValue :=
  if truthy raw then raw else .null

/-- The `finalResults` object the wrapper's `onFinish` handler builds from
the engine summary and passes to `onComplete`. -/
def onFinishPayload (summary : JSValue) (now : Nat) : JSValue :=
  .obj [("download", condDiv (getField summary "download")),
        ("upload", condDiv (getField summary "upload")),
        ("latency", orNull (getField summary "latency")),
        ("jitter", orNull (getField summary "jitter")),
        ("downLoadedLatency", orNull (getField summary "downLoadedLatency")),
        ("upLoadedLatency", orNull (getField summary "upLoadedLatency")),
        ("timestamp", .num (.fin now))]

/-!
## Test Orchestrator (service worker `STATE`, `startCloudflareSpeedTest`,
`onComplete`/`onError` callbacks and the `START_TEST` message handler)
-/

/-- The service worker's module-level `STATE`, plus `pendingRetries`,
which counts the retry callbacks currently scheduled with `setTimeout`
(implicit in the source's timer queue). -/
structure OrchState where
  testRunning : Bool
  lastResult : Option JSValue
  currentTest : Bool
  retryCount : Nat
  maxRetries : Nat
  backoffDelay : Nat
  pendingRetries : Nat

/-- The initial `STATE` object (service worker lines 23-30). -/
def initState : OrchState :=
  { testRunning := false, lastResult := none, currentTest := false,
    retryCount := 0, maxRetries := 3, backoffDelay := 1000,
    pendingRetries := 0 }

/-- Observable actions of the service worker: messages sent to the popup,
`sendResponse` calls, `setTimeout` scheduling, engine invocations, the
`persistResult` call, and an escaped `TypeError` from the classifier. -/
inductive OutEvent where
  | statusStarting
  | statusRetrying (secs : Nat)
  | scheduleRetry (delayMs : Nat)
  | doneOk (download upload latency jitter : JSValue)
  | doneFail (reason : String) (userMessage : String)
  | engineInvoke
  | persistReq (result : JSValue)
  | response (ok : Bool) (reason : Option String)
  | threwTypeError

/-- External events the worker reacts to, each carrying the ambient data
the handler reads (`navigator.onLine`, `Date.now()`). -/
inductive Ev where
  | msgStartTest (online : Bool)
  | engineComplete (result : JSValue) (now : Nat)
  | engineError (err : JSValue) (online : Bool)
  | retryTimer (online : Bool)

/-- `startCloudflareSpeedTest()` up to and including `speedTest.start()`
(service worker lines 127-144 and 224-227): bail out silently when a test
is running, emit a terminal offline failure when offline, otherwise mark
running, announce the start and invoke the engine. -/
def startCloudflareSpeedTest (st : OrchState) (online : Bool) :
    OrchState × List OutEvent :=
  if st.testRunning then (st, [])
  else if !online then (st, [.doneFail "offline" msgOffline])
  else ({st with testRunning := true, currentTest := true},
        [.statusStarting, .engineInvoke])

/-- The retry decision inside the `onError` callback (service worker
lines 192-220), taken after the classifier has produced `info` and the
run-state has been cleared: transient kinds below the retry cap schedule
a backoff re-invocation, everything else resets the count and emits one
terminal failure. -/
def retryStep (info : ErrorInfo) (st : OrchState) : OrchState × List OutEvent :=
  if (info.type == "network" || info.type == "rate-limit") &&
      decide (st.retryCount < st.maxRetries) then
    let count := st.retryCount + 1
    let delay := st.backoffDelay * 2 ^ (count - 1)
    ({st with retryCount := count, pendingRetries := st.pendingRetries + 1},
     [.statusRetrying ((delay + 999) / 1000), .scheduleRetry delay])
  else
    ({st with retryCount := 0},
     [.doneFail info.type info.userMessage])

/-- The `onError` callback (service worker lines 186-221): clear the
run-state, classify, then decide retry versus terminal failure.  A
`TypeError` thrown by the classifier escapes the callback after the
run-state was already cleared. -/
def handleError (st : OrchState) (err : JSValue) (online : Bool) :
    OrchState × List OutEvent :=
  let st1 := {st with testRunning := false, currentTest := false}
  match categorizeError err online with
  | .error _ => (st1, [.threwTypeError])
  | .ok info => retryStep info st1

/-- The `lastResult` object built in `onComplete` (lines 163-170). -/
def mkLastResult (result : JSValue) (now : Nat) : JSValue :=
  .obj [("download", nullCoalesce (getField result "download")),
        ("upload", nullCoalesce (getField result "upload")),
        ("latency", nullCoalesce (getField result "latency")),
        ("jitter", nullCoalesce (getField result "jitter")),
        ("units", .str "Mbps"),
        ("ts", .num (.fin now))]

/-- The `onComplete` callback (service worker lines 159-185): clear the
run-state, reset the retry count, record `lastResult`, emit a `done`
success message and call `persistResult`. -/
def handleComplete (st : OrchState) (result : JSValue) (now : Nat) :
    OrchState × List OutEvent :=
  ({st with testRunning := false, currentTest := false, retryCount := 0,
            lastResult := some (mkLastResult result now)},
   [.doneOk (nullCoalesce (getField result "download"))
            (nullCoalesce (getField result "upload"))
            (nullCoalesce (getField result "latency"))
            (nullCoalesce (getField result "jitter")),
    .persistReq result])

/-- One reaction of the service worker to an external event.  The
`START_TEST` branch is the message listener (lines 248-257): reject with
`already-running` while `testRunning`, otherwise start and respond
`ok: true`.  A firing retry timer consumes its pending slot and calls
`startCloudflareSpeedTest` again. -/
def step (st : OrchState) (ev : Ev) : OrchState × List OutEvent :=
  match ev with
  | .msgStartTest online =>
    if st.testRunning then (st, [.response false (some "already-running")])
    else
      let (st1, evs) := startCloudflareSpeedTest st online
      (st1, evs ++ [.response true none])
  | .engineComplete result now => handleComplete st result now
  | .engineError err online => handleError st err online
  | .retryTimer online =>
    startCloudflareSpeedTest {st with pendingRetries := st.pendingRetries - 1} online

/-- Run a sequence of events from a state, accumulating the emitted
actions. -/
def runEvents (st : OrchState) : List Ev → OrchState × List OutEvent
  | [] => (st, [])
  | ev :: rest =>
    let (st1, evs1) := step st ev
    let (st2, evs2) := runEvents st1 rest
    (st2, evs1 ++ evs2)

/-- The delays passed to `setTimeout` within an action list. -/
def scheduledDelays (evs : List OutEvent) : List Nat :=
  evs.filterMap fun e =>
    match e with
    | .scheduleRetry d => some d
    | _ => none

/-- Whether an action list schedules a retry. -/
def schedulesRetry (evs : List OutEvent) : Bool :=
  evs.any fun e =>
    match e with
    | .scheduleRetry _ => true
    | _ => false

/-- Whether an action is a terminal failure message (`ok: false`). -/
def isDoneFail : OutEvent → Bool
  | .doneFail _ _ => true
  | _ => false

/-- A concrete network-classified error object. -/
def netErrObj : JSValue := .obj [("message", .str "network request failed")]

/-- The spec's backoff formula, `baseDelayMs * 2 ^ count` with the count
taken before the increment (spec section 4.2); stated from the spec's
words to be compared with the delay the code computes after
incrementing. -/
def specDelayFormula (st : OrchState) : Nat :=
  st.backoffDelay * 2 ^ st.retryCount

/-- A run started and then failed once with a network error: the state
during the first backoff wait window (one retry scheduled, `testRunning`
already false). -/
def backoffState : OrchState :=
  (runEvents initState [.msgStartTest true, .engineError netErrObj true]).1

/-- A start, three network failures each followed by the retry timer
firing: the event sequence behind the 1s/2s/4s backoff schedule. -/
def retryTrace : List Ev :=
  [.msgStartTest true, .engineError netErrObj true, .retryTimer true,
   .engineError netErrObj true, .retryTimer true, .engineError netErrObj true]

/-- Valid sample result with download 50 used in concrete witnesses. -/
def sampleResult : JSValue := .obj [("download", .num (.fin 50))]

/-- Valid sample history entry used in concrete witnesses. -/
def entryA : JSValue := .obj [("download", .num (.fin 10))]

/-- Second valid sample history entry used in concrete witnesses. -/
def entryB : JSValue := .obj [("download", .num (.fin 20))]

/-- Result whose download is `NaN`, as in the spec's explicit edge case. -/
def nanResult : JSValue := .obj [("download", .num .nan)]

/-!
## Claim theorems
-/

/-- C1 counterexample: during the backoff wait window the orchestrator is
busy in the spec's sense (one retry scheduled, reached from the initial
state by a start and a network failure), yet `testRunning` is already
false, so a `START_TEST` message is answered `ok: true` and invokes the
engine again instead of being rejected with `already-running`. -/
theorem start_during_backoff_accepted :
    (backoffState.pendingRetries = 1 ∧ backoffState.testRunning = false) ∧
    (step backoffState (.msgStartTest true)).2 =
      [.statusStarting, .engineInvoke, .response true none] :=
  ⟨⟨rfl, rfl⟩, rfl⟩

/-- C1 (amended): a start-request received while a measurement run is
executing (`testRunning` true) is rejected with reason `already-running`,
leaves the state unchanged and causes no engine invocation; during the
backoff wait window (`testRunning` false, retry pending) the request is
not rejected. -/
theorem start_rejected_while_running :
    ∀ (st : OrchState) (online : Bool), st.testRunning = true →
      step st (.msgStartTest online) =
        (st, [.response false (some "already-running")]) := by
  intro st online h
  simp [step, h]

/-- Witness for `start_rejected_while_running` at a concrete running
state. -/
theorem start_rejected_while_running_witness :
    step {initState with testRunning := true, currentTest := true}
        (.msgStartTest true) =
      ({initState with testRunning := true, currentTest := true},
       [.response false (some "already-running")]) :=
  start_rejected_while_running
    {initState with testRunning := true, currentTest := true} true rfl

/-- C2: starting from a fresh state (base delay 1000, count 0), three
consecutive network failures schedule retries after exactly 1000, 2000
and 4000 milliseconds; and in general the delay the code computes after
incrementing the count (`backoffDelay * 2 ^ (count + 1 - 1)`) equals the
spec's formula `backoffDelay * 2 ^ count` evaluated before the
increment. -/
theorem backoff_delays_exact :
    scheduledDelays (runEvents initState retryTrace).2 = [1000, 2000, 4000] ∧
    ∀ (info : ErrorInfo) (st : OrchState),
      (info.type = "network" ∨ info.type = "rate-limit") →
      st.retryCount < st.maxRetries →
      scheduledDelays (retryStep info st).2 = [specDelayFormula st] := by
  constructor
  · rfl
  · intro info st h1 h2
    have hc : ((info.type == "network" || info.type == "rate-limit") &&
        decide (st.retryCount < st.maxRetries)) = true := by
      rcases h1 with h | h <;> simp [h, h2]
    unfold retryStep
    rw [if_pos hc]
    simp [scheduledDelays, specDelayFormula]

/-- Witness for `backoff_delays_exact` at a network failure from the
initial state. -/
theorem backoff_delays_exact_witness :
    scheduledDelays (retryStep ⟨"network", msgNetwork⟩ initState).2 =
      [specDelayFormula initState] :=
  backoff_delays_exact.2 ⟨"network", msgNetwork⟩ initState (Or.inl rfl)
    (by decide)

/-- C3: every element surviving the read-side filter is a non-null,
truthy object whose `download` field is a finite number, and any
non-array input (absent, `null`, corrupted) sanitizes to the empty
history; the embedding is a total function, mirroring the source's
`try`/`catch` that never lets the filter raise. -/
theorem sanitize_read_filter :
    ∀ (v : JSValue),
      (∀ x, x ∈ sanitizeResults v →
        x ≠ JSValue.null ∧ truthy x = true ∧ typeof x = "object" ∧
        typeof (getField x "download") = "number" ∧
        isFiniteNumber (getField x "download") = true) ∧
      (isArray v = false → sanitizeResults v = []) := by
  intro v
  constructor
  · intro x hx
    have hval : validEntry x = true := by
      cases v with
      | arr elems => exact (List.mem_filter.mp hx).2
      | undefined => cases hx
      | null => cases hx
      | bool b => cases hx
      | num n => cases hx
      | str s => cases hx
      | obj fields => cases hx
    have h4 := hval
    simp only [validEntry, Bool.and_eq_true, beq_iff_eq] at h4
    obtain ⟨⟨⟨h1, h2⟩, h3⟩, hfin⟩ := h4
    refine ⟨?_, h1, h2, h3, hfin⟩
    intro heq
    rw [heq] at h1
    simp [truthy] at h1
  · intro h
    cases v <;> simp_all [sanitizeResults, isArray]

/-- Witness for `sanitize_read_filter` on a concrete valid entry kept by
the filter. -/
theorem sanitize_read_filter_witness :
    entryA ≠ JSValue.null ∧ truthy entryA = true ∧ typeof entryA = "object" ∧
    typeof (getField entryA "download") = "number" ∧
    isFiniteNumber (getField entryA "download") = true :=
  (sanitize_read_filter (.arr [entryA, .null])).1 entryA
    (show entryA ∈ [entryA] from List.mem_singleton.mpr rfl)

/-- C4: with the retry cap at 3, a retry is scheduled iff the classified
kind is `network` or `rate-limit` and the current count is below 3; a
scheduled retry increments the count by exactly one, and a denied retry
(exhaustion or non-retryable kind) resets the count to 0 and emits
exactly one terminal `done: false` carrying the kind and its user
message. -/
theorem retry_decision :
    ∀ (info : ErrorInfo) (st : OrchState), st.maxRetries = 3 →
      (schedulesRetry (retryStep info st).2 = true ↔
        ((info.type = "network" ∨ info.type = "rate-limit") ∧
          st.retryCount < 3)) ∧
      (schedulesRetry (retryStep info st).2 = true →
        (retryStep info st).1.retryCount = st.retryCount + 1) ∧
      (schedulesRetry (retryStep info st).2 = false →
        (retryStep info st).1.retryCount = 0 ∧
        (retryStep info st).2 = [.doneFail info.type info.userMessage]) := by
  intro info st hmax
  by_cases hc : ((info.type == "network" || info.type == "rate-limit") &&
      decide (st.retryCount < st.maxRetries)) = true
  · have hcond : (info.type = "network" ∨ info.type = "rate-limit") ∧
        st.retryCount < 3 := by
      simpa [Bool.and_eq_true, Bool.or_eq_true, beq_iff_eq,
        decide_eq_true_eq, hmax] using hc
    unfold retryStep
    rw [if_pos hc]
    refine ⟨⟨fun _ => hcond, fun _ => rfl⟩, fun _ => rfl, fun hfalse => ?_⟩
    simp [schedulesRetry] at hfalse
  · have hyc : ¬((info.type = "network" ∨ info.type = "rate-limit") ∧
        st.retryCount < 3) := by
      intro hcon
      apply hc
      rcases hcon with ⟨hk, hlt⟩
      rcases hk with h | h <;> simp [h, hmax, hlt]
    unfold retryStep
    rw [if_neg hc]
    refine ⟨⟨fun htrue => ?_, fun hcon => absurd hcon hyc⟩,
      fun htrue => ?_, fun _ => ⟨rfl, rfl⟩⟩
    · simp [schedulesRetry] at htrue
    · simp [schedulesRetry] at htrue

/-- Witness for `retry_decision`: a network failure at count 0 increments
the count to 1. -/
theorem retry_decision_witness :
    (retryStep ⟨"network", msgNetwork⟩ initState).1.retryCount =
      initState.retryCount + 1 :=
  (retry_decision ⟨"network", msgNetwork⟩ initState rfl).2.1 rfl

/-- C5: whenever `persistResult` writes, the written history has at most
2 entries and the fresh entry first; and prepending to a stored history
of exactly two valid entries keeps the fresh entry and the previous
newest one, dropping the oldest. -/
theorem history_cap_and_eviction :
    ∀ (result : JSValue) (now : Nat) (stored : JSValue) (next : List JSValue),
      persistResult result now false stored = .wrote next →
      (next.length ≤ 2 ∧ next.head? = some (mkEntry now result)) ∧
      (∀ a b, stored = .arr [a, b] → validEntry a = true →
        validEntry b = true → next = [mkEntry now result, a]) := by
  intro result now stored next h
  unfold persistResult at h
  split at h
  · cases h
  · rw [if_neg (by simp)] at h
    cases h
    constructor
    · constructor
      · exact List.length_take_le 2 _
      · rfl
    · intro a b hst ha hb
      subst hst
      simp [sanitizeResults, List.filter, ha, hb]

/-- Witness for `history_cap_and_eviction`: persisting a valid result on
top of two valid entries evicts the oldest. -/
theorem history_cap_and_eviction_witness :
    [mkEntry 5 sampleResult, entryA] = [mkEntry 5 sampleResult, entryA] :=
  (history_cap_and_eviction sampleResult 5 (.arr [entryA, entryB])
      [mkEntry 5 sampleResult, entryA] rfl).2 entryA entryB rfl rfl rfl

/-- C6: the classifier's checks form a priority list with the network
check first: whenever classification succeeds while offline, the kind is
`network` regardless of the message; the online message
"HTTP 429: too many requests" (no network keyword) classifies as
`rate-limit`; and every successful classification carries the fixed user
message of its kind. -/
theorem classifier_priority :
    (∀ (e : JSValue) (info : ErrorInfo),
      categorizeError e false = .ok info → info.type = "network") ∧
    (categorizeError (.obj [("message", .str "HTTP 429: too many requests")])
        true = .ok ⟨"rate-limit", msgRateLimit⟩) ∧
    (∀ (e : JSValue) (online : Bool) (info : ErrorInfo),
      categorizeError e online = .ok info →
        info.userMessage = userMessageFor info.type) := by
  refine ⟨?_, rfl, ?_⟩
  · intro e info h
    unfold categorizeError at h
    split at h
    · split at h
      · cases h
        rfl
      · rename_i hcond
        simp at hcond
    · cases h
  · intro e online info h
    unfold categorizeError at h
    split at h
    · split at h
      · cases h
        rfl
      · split at h
        · cases h
          rfl
        · split at h
          · cases h
            rfl
          · cases h
            rfl
    · cases h

/-- Witness for `classifier_priority`: a nullish error while offline is
classified `network`, and the rate-limit classification carries the fixed
rate-limit message. -/
theorem classifier_priority_witness :
    (⟨"network", msgNetwork⟩ : ErrorInfo).type = "network" ∧
    msgRateLimit = userMessageFor "rate-limit" :=
  ⟨classifier_priority.1 .null ⟨"network", msgNetwork⟩ rfl,
   classifier_priority.2.2 (.obj [("message", .str "429")]) true
     ⟨"rate-limit", msgRateLimit⟩ rfl⟩

/-- C7: a completed run whose result lacks a finite numeric `download`
(`NaN`, infinities, non-numbers) emits no `done: false` message — the
success path still announces `done: true` — and `persistResult` skips
without any storage access, so the stored history is unchanged. -/
theorem nan_download_not_persisted :
    ∀ (st : OrchState) (result : JSValue) (now : Nat),
      validDownload result = false →
      ((handleComplete st result now).2.all (fun e => !isDoneFail e) = true) ∧
      (∀ (now2 : Nat) (readError : Bool) (stored : JSValue),
        persistResult result now2 readError stored = .skippedInvalid) := by
  intro st result now h
  constructor
  · simp [handleComplete, isDoneFail]
  · intro now2 readError stored
    simp [persistResult, h]

/-- Witness for `nan_download_not_persisted` at a result whose `download`
is `NaN`. -/
theorem nan_download_not_persisted_witness :
    persistResult nanResult 8 false (.arr [entryA]) = .skippedInvalid :=
  (nan_download_not_persisted initState nanResult 7 rfl).2 8 false
    (.arr [entryA])

/-- C8 counterexample: a storage read error during the persistence of a
valid result makes the code log and return — the outcome is
`readErrorAbort`, not the write of the fresh entry over an empty history
that "fall back to empty and continue" would have produced. -/
theorem read_error_not_empty_fallback :
    persistResult sampleResult 1000 true (.arr []) = .readErrorAbort ∧
    PersistOutcome.readErrorAbort ≠
      PersistOutcome.wrote [mkEntry 1000 sampleResult] :=
  ⟨rfl, fun h => PersistOutcome.noConfusion h⟩

/-- C8 (amended): on a storage-layer read error the core does not
propagate the error — `persistResult` returns after logging — but it
also does not continue with an empty history: nothing is written and the
fresh entry is silently dropped, leaving stored history untouched. -/
theorem read_error_aborts_persistence :
    ∀ (result : JSValue) (now : Nat) (stored : JSValue),
      validDownload result = true →
      persistResult result now true stored = .readErrorAbort := by
  intro result now stored h
  simp [persistResult, h]

/-- Witness for `read_error_aborts_persistence` at a valid concrete
result. -/
theorem read_error_aborts_persistence_witness :
    persistResult sampleResult 1 true (.arr [entryA]) = .readErrorAbort :=
  read_error_aborts_persistence sampleResult 1 (.arr [entryA]) rfl

/-- C9 counterexample: the classifier is not total — an error object
whose `message` field is the number 42 is non-nullish, so optional
chaining does not guard it, and the `toLowerCase()` call throws a
`TypeError`. -/
theorem classifier_throws_on_numeric_message :
    categorizeError (.obj [("message", .num (.fin 42))]) true = .error () :=
  rfl

/-- Field access `e.f` is safe for the classifier's lower-casing when the
container is nullish or the field is nullish or a string — exactly the
inputs on which `toLowerCase` cannot throw. -/
def fieldLowerSafe (e : JSValue) (f : String) : Bool :=
  match e with
  | .null => true
  | .undefined => true
  | _ =>
    match getField e f with
    | .null => true
    | .undefined => true
    | .str _ => true
    | _ => false

/-- C9 (amended): on every input whose `message` and `name` fields are
nullish or strings (including `null`, `undefined` and objects lacking the
fields), the classifier returns a kind among exactly
{network, rate-limit, security, unknown} with the fixed non-empty user
message of that kind; inputs with a non-nullish non-string `message` or
`name` instead throw a `TypeError`. -/
theorem classifier_total_on_string_fields :
    ∀ (e : JSValue) (online : Bool),
      fieldLowerSafe e "message" = true → fieldLowerSafe e "name" = true →
      ∃ info, categorizeError e online = .ok info ∧
        (info.type = "network" ∨ info.type = "rate-limit" ∨
          info.type = "security" ∨ info.type = "unknown") ∧
        info.userMessage = userMessageFor info.type ∧
        info.userMessage ≠ "" := by
  have key : ∀ (v : JSValue) (f : String), fieldLowerSafe v f = true →
      ∃ s, jsOptLower v f = .ok s := by
    intro v f h
    cases v with
    | null => exact ⟨"", rfl⟩
    | undefined => exact ⟨"", rfl⟩
    | bool b => exact ⟨"", rfl⟩
    | num n => exact ⟨"", rfl⟩
    | str s => exact ⟨"", rfl⟩
    | arr elems => exact ⟨"", rfl⟩
    | obj fields =>
      cases hg : lookupField fields f with
      | null => exact ⟨"", by simp [jsOptLower, getField, hg]⟩
      | undefined => exact ⟨"", by simp [jsOptLower, getField, hg]⟩
      | str s => exact ⟨lowerStr s, by simp [jsOptLower, getField, hg]⟩
      | bool b => simp [fieldLowerSafe, getField, hg] at h
      | num n => simp [fieldLowerSafe, getField, hg] at h
      | arr elems => simp [fieldLowerSafe, getField, hg] at h
      | obj fs => simp [fieldLowerSafe, getField, hg] at h
  intro e online h1 h2
  obtain ⟨m, hm⟩ := key e "message" h1
  obtain ⟨n, hn⟩ := key e "name" h2
  unfold categorizeError
  rw [hm, hn]
  dsimp only
  by_cases c1 : (strContains m "network" || strContains m "fetch" ||
      strContains m "timeout" || strContains m "connection" ||
      n == "networkerror" || !online) = true
  · rw [if_pos c1]
    exact ⟨⟨"network", msgNetwork⟩, rfl, Or.inl rfl, rfl, by decide⟩
  · rw [if_neg c1]
    by_cases c2 : (strContains m "429" || strContains m "rate limit" ||
        strContains m "too many requests") = true
    · rw [if_pos c2]
      exact ⟨⟨"rate-limit", msgRateLimit⟩, rfl, Or.inr (Or.inl rfl), rfl,
        by decide⟩
    · rw [if_neg c2]
      by_cases c3 : (strContains m "cors" || strContains m "blocked" ||
          strContains m "security") = true
      · rw [if_pos c3]
        exact ⟨⟨"security", msgSecurity⟩, rfl, Or.inr (Or.inr (Or.inl rfl)),
          rfl, by decide⟩
      · rw [if_neg c3]
        exact ⟨⟨"unknown", msgUnknown⟩, rfl, Or.inr (Or.inr (Or.inr rfl)),
          rfl, by decide⟩

/-- Witness for `classifier_total_on_string_fields` at a nullish error. -/
theorem classifier_total_on_string_fields_witness :
    ∃ info, categorizeError .null true = .ok info ∧
      (info.type = "network" ∨ info.type = "rate-limit" ∨
        info.type = "security" ∨ info.type = "unknown") ∧
      info.userMessage = userMessageFor info.type ∧
      info.userMessage ≠ "" :=
  classifier_total_on_string_fields .null true rfl rfl

/-- C10: when the raw engine summary's download is falsy (0, absent,
`NaN`), the wrapper's completion payload reports `download = null`; the
write-side validation of `persistResult` then rejects the payload in
every storage configuration, so such a measurement never enters
history. -/
theorem zero_download_reported_null_and_dropped :
    ∀ (summary : JSValue) (now : Nat),
      truthy (getField summary "download") = false →
      getField (onFinishPayload summary now) "download" = JSValue.null ∧
      ∀ (now2 : Nat) (readError : Bool) (stored : JSValue),
        persistResult (onFinishPayload summary now) now2 readError stored =
          .skippedInvalid := by
  intro summary now h
  have hd : getField (onFinishPayload summary now) "download" =
      JSValue.null := by
    show condDiv (getField summary "download") = JSValue.null
    simp [condDiv, h]
  refine ⟨hd, ?_⟩
  intro now2 readError stored
  simp [persistResult, validDownload, hd, typeof]

/-- Witness for `zero_download_reported_null_and_dropped` at a raw
summary whose download is exactly 0. -/
theorem zero_download_reported_null_and_dropped_witness :
    getField (onFinishPayload (.obj [("download", .num (.fin 0))]) 3)
        "download" = JSValue.null ∧
    persistResult (onFinishPayload (.obj [("download", .num (.fin 0))]) 3) 9
        false (.arr [entryA]) = .skippedInvalid :=
  ⟨(zero_download_reported_null_and_dropped
      (.obj [("download", .num (.fin 0))]) 3 rfl).1,
   (zero_download_reported_null_and_dropped
      (.obj [("download", .num (.fin 0))]) 3 rfl).2 9 false (.arr [entryA])⟩

end Speedtest
